import Mathlib

/-
Verification development for the fdk-aac wrapper crate.

The crate is a safe wrapper over the libfdk-aac codec engine.  The engine
itself is external: we model it as an oracle supplying the status code of
each successive engine call (for the encoder) or the values it writes
through out-parameters (handle for the decoder open, bytesValid for fill).
The wrapper's own logic - status-code translation, the ordered parameter
configuration protocol, buffer-descriptor construction, short-circuiting
on errors, and handle lifecycle - is translated here from the source
(src/src/enc.rs, src/src/dec.rs, src/fdk-aac-sys/src/enc.rs).
-/

set_option autoImplicit false

/-! ## Encoder status codes (fdk-aac-sys/src/enc.rs, enum Error) -/

def AACENC_OK : Int := 0x0000
def AACENC_INVALID_HANDLE : Int := 0x0020
def AACENC_MEMORY_ERROR : Int := 0x0021
def AACENC_UNSUPPORTED_PARAMETER : Int := 0x0022
def AACENC_INVALID_CONFIG : Int := 0x0023
def AACENC_INIT_ERROR : Int := 0x0040
def AACENC_INIT_AAC_ERROR : Int := 0x0041
def AACENC_INIT_SBR_ERROR : Int := 0x0042
def AACENC_INIT_TP_ERROR : Int := 0x0043
def AACENC_INIT_META_ERROR : Int := 0x0044
def AACENC_INIT_MPS_ERROR : Int := 0x0045
def AACENC_ENCODE_ERROR : Int := 0x0060
def AACENC_ENCODE_EOF : Int := 0x0080

/-- EncoderError wraps the raw numeric status code (src/src/enc.rs line 11). -/
structure EncoderError where
  code : Int
deriving DecidableEq

/-- Translation of EncoderError::message (src/src/enc.rs lines 14-31):
a chain of comparisons of the wrapped code against the encoder status
constants, with a generic fallback arm. -/
def EncoderError.message (e : EncoderError) : String :=
  if e.code = AACENC_OK then "Ok"
  else if e.code = AACENC_INVALID_HANDLE then "Handle passed to function call was invalid."
  else if e.code = AACENC_MEMORY_ERROR then "Memory allocation failed."
  else if e.code = AACENC_UNSUPPORTED_PARAMETER then "Parameter not available."
  else if e.code = AACENC_INVALID_CONFIG then "Configuration not provided."
  else if e.code = AACENC_INIT_ERROR then "General initialization error."
  else if e.code = AACENC_INIT_AAC_ERROR then "AAC library initialization error."
  else if e.code = AACENC_INIT_SBR_ERROR then "SBR library initialization error."
  else if e.code = AACENC_INIT_TP_ERROR then "Transport library initialization error."
  else if e.code = AACENC_INIT_META_ERROR then "Meta data library initialization error."
  else if e.code = AACENC_INIT_MPS_ERROR then "MPS library initialization error."
  else if e.code = AACENC_ENCODE_ERROR then "The encoding process was interrupted by an unexpected error."
  else if e.code = AACENC_ENCODE_EOF then "End of file reached."
  else "Unknown error"

/-- Status codes recognized by EncoderError::message, in match-arm order. -/
def encKnownCodes : List Int :=
  [AACENC_OK, AACENC_INVALID_HANDLE, AACENC_MEMORY_ERROR, AACENC_UNSUPPORTED_PARAMETER,
   AACENC_INVALID_CONFIG, AACENC_INIT_ERROR, AACENC_INIT_AAC_ERROR, AACENC_INIT_SBR_ERROR,
   AACENC_INIT_TP_ERROR, AACENC_INIT_META_ERROR, AACENC_INIT_MPS_ERROR,
   AACENC_ENCODE_ERROR, AACENC_ENCODE_EOF]

/-! ## Decoder status codes

Modelled from the spec: the decoder half of fdk-aac-sys (the module
defining the AAC_DECODER_ERROR constants referenced by src/src/dec.rs) is
not under src/.  Per spec section 6, "all numeric parameter identifiers and
status codes are fixed integer constants defined by the engine; the wrapper
must preserve their exact numeric values", so the constants below carry the
engine's fixed values, grouped into the sync / init / decode /
ancillary-data categories the spec describes. -/

def AAC_DEC_OK : Int := 0x0000
def AAC_DEC_OUT_OF_MEMORY : Int := 0x0002
def AAC_DEC_UNKNOWN : Int := 0x0005
def aac_dec_sync_error_start : Int := 0x1000
def AAC_DEC_TRANSPORT_SYNC_ERROR : Int := 0x1001
def AAC_DEC_NOT_ENOUGH_BITS : Int := 0x1002
def aac_dec_init_error_start : Int := 0x2000
def AAC_DEC_INVALID_HANDLE : Int := 0x2001
def AAC_DEC_UNSUPPORTED_AOT : Int := 0x2002
def AAC_DEC_UNSUPPORTED_FORMAT : Int := 0x2003
def AAC_DEC_UNSUPPORTED_ER_FORMAT : Int := 0x2004
def AAC_DEC_UNSUPPORTED_EPCONFIG : Int := 0x2005
def AAC_DEC_UNSUPPORTED_MULTILAYER : Int := 0x2006
def AAC_DEC_UNSUPPORTED_CHANNELCONFIG : Int := 0x2007
def AAC_DEC_UNSUPPORTED_SAMPLINGRATE : Int := 0x2008
def AAC_DEC_INVALID_SBR_CONFIG : Int := 0x2009
def AAC_DEC_SET_PARAM_FAIL : Int := 0x200A
def AAC_DEC_NEED_TO_RESTART : Int := 0x200B
def AAC_DEC_OUTPUT_BUFFER_TOO_SMALL : Int := 0x200C
def aac_dec_decode_error_start : Int := 0x4000
def AAC_DEC_TRANSPORT_ERROR : Int := 0x4001
def AAC_DEC_PARSE_ERROR : Int := 0x4002
def AAC_DEC_UNSUPPORTED_EXTENSION_PAYLOAD : Int := 0x4003
def AAC_DEC_DECODE_FRAME_ERROR : Int := 0x4004
def AAC_DEC_CRC_ERROR : Int := 0x4005
def AAC_DEC_INVALID_CODE_BOOK : Int := 0x4006
def AAC_DEC_UNSUPPORTED_PREDICTION : Int := 0x4007
def AAC_DEC_UNSUPPORTED_CCE : Int := 0x4008
def AAC_DEC_UNSUPPORTED_LFE : Int := 0x4009
def AAC_DEC_UNSUPPORTED_GAIN_CONTROL_DATA : Int := 0x400A
def AAC_DEC_UNSUPPORTED_SBA : Int := 0x400B
def AAC_DEC_TNS_READ_ERROR : Int := 0x400C
def AAC_DEC_RVLC_ERROR : Int := 0x400D
def aac_dec_anc_data_error_start : Int := 0x8000
def AAC_DEC_ANC_DATA_ERROR : Int := 0x8001
def AAC_DEC_TOO_SMALL_ANC_BUFFER : Int := 0x8002
def AAC_DEC_TOO_MANY_ANC_ELEMENTS : Int := 0x8003

/-- DecoderError wraps the raw numeric status code (src/src/dec.rs line 9). -/
structure DecoderError where
  code : Int
deriving DecidableEq

/-- Translation of DecoderError::message (src/src/dec.rs lines 45-86):
a chain of comparisons of the wrapped code against the decoder status
constants, in the source's match-arm order, with a generic fallback arm. -/
def DecoderError.message (e : DecoderError) : String :=
  if e.code = AAC_DEC_OK then "No error occurred. Output buffer is valid and error free."
  else if e.code = AAC_DEC_OUT_OF_MEMORY then "Heap returned NULL pointer. Output buffer is invalid."
  else if e.code = AAC_DEC_UNKNOWN then "Error condition is of unknown reason, or from a another module. Output buffer is invalid."
  else if e.code = aac_dec_sync_error_start then "Synchronization errors. Output buffer is invalid."
  else if e.code = AAC_DEC_TRANSPORT_SYNC_ERROR then "The transport decoder had synchronization problems. Do not exit decoding. Just feed new bitstream data."
  else if e.code = AAC_DEC_NOT_ENOUGH_BITS then "The input buffer ran out of bits."
  else if e.code = aac_dec_init_error_start then "Initialization errors. Output buffer is invalid."
  else if e.code = AAC_DEC_INVALID_HANDLE then "The handle passed to the function call was invalid (NULL)."
  else if e.code = AAC_DEC_UNSUPPORTED_AOT then "The AOT found in the configuration is not supported."
  else if e.code = AAC_DEC_UNSUPPORTED_FORMAT then "The bitstream format is not supported. "
  else if e.code = AAC_DEC_UNSUPPORTED_ER_FORMAT then "The error resilience tool format is not supported."
  else if e.code = AAC_DEC_UNSUPPORTED_EPCONFIG then "The error protection format is not supported."
  else if e.code = AAC_DEC_UNSUPPORTED_MULTILAYER then "More than one layer for AAC scalable is not supported."
  else if e.code = AAC_DEC_UNSUPPORTED_CHANNELCONFIG then "The channel configuration (either number or arrangement) is not supported."
  else if e.code = AAC_DEC_UNSUPPORTED_SAMPLINGRATE then "The sample rate specified in the configuration is not supported."
  else if e.code = AAC_DEC_INVALID_SBR_CONFIG then "The SBR configuration is not supported."
  else if e.code = AAC_DEC_SET_PARAM_FAIL then "The parameter could not be set. Either the value was out of range or the parameter does  not exist."
  else if e.code = AAC_DEC_NEED_TO_RESTART then "The decoder needs to be restarted, since the required configuration change cannot be performed."
  else if e.code = AAC_DEC_OUTPUT_BUFFER_TOO_SMALL then "The provided output buffer is too small."
  else if e.code = aac_dec_decode_error_start then "Decode errors. Output buffer is valid but concealed."
  else if e.code = AAC_DEC_TRANSPORT_ERROR then "The transport decoder encountered an unexpected error."
  else if e.code = AAC_DEC_PARSE_ERROR then "Error while parsing the bitstream. Most probably it is corrupted, or the system crashed."
  else if e.code = AAC_DEC_UNSUPPORTED_EXTENSION_PAYLOAD then "Error while parsing the extension payload of the bitstream. The extension payload type found is not supported."
  else if e.code = AAC_DEC_DECODE_FRAME_ERROR then "The parsed bitstream value is out of range. Most probably the bitstream is corrupt, or the system crashed."
  else if e.code = AAC_DEC_CRC_ERROR then "The embedded CRC did not match."
  else if e.code = AAC_DEC_INVALID_CODE_BOOK then "An invalid codebook was signaled. Most probably the bitstream is corrupt, or the system  crashed."
  else if e.code = AAC_DEC_UNSUPPORTED_PREDICTION then "Predictor found, but not supported in the AAC Low Complexity profile. Most probably the bitstream is corrupt, or has a wrong format."
  else if e.code = AAC_DEC_UNSUPPORTED_CCE then "A CCE element was found which is not supported. Most probably the bitstream is corrupt, or has a wrong format."
  else if e.code = AAC_DEC_UNSUPPORTED_LFE then "A LFE element was found which is not supported. Most probably the bitstream is corrupt, or has a wrong format."
  else if e.code = AAC_DEC_UNSUPPORTED_GAIN_CONTROL_DATA then "Gain control data found but not supported. Most probably the bitstream is corrupt, or has a wrong format."
  else if e.code = AAC_DEC_UNSUPPORTED_SBA then "SBA found, but currently not supported in the BSAC profile."
  else if e.code = AAC_DEC_TNS_READ_ERROR then "Error while reading TNS data. Most probably the bitstream is corrupt or the system crashed."
  else if e.code = AAC_DEC_RVLC_ERROR then "Error while decoding error resilient data."
  else if e.code = aac_dec_anc_data_error_start then "Ancillary data errors. Output buffer is valid."
  else if e.code = AAC_DEC_ANC_DATA_ERROR then "Non severe error concerning the ancillary data handling."
  else if e.code = AAC_DEC_TOO_SMALL_ANC_BUFFER then "The registered ancillary data buffer is too small to receive the parsed data."
  else if e.code = AAC_DEC_TOO_MANY_ANC_ELEMENTS then "More than the allowed number of ancillary data elements should be written to buffer."
  else "Unknown error"

/-- Status codes recognized by DecoderError::message, in match-arm order. -/
def decKnownCodes : List Int :=
  [AAC_DEC_OK, AAC_DEC_OUT_OF_MEMORY, AAC_DEC_UNKNOWN, aac_dec_sync_error_start,
   AAC_DEC_TRANSPORT_SYNC_ERROR, AAC_DEC_NOT_ENOUGH_BITS, aac_dec_init_error_start,
   AAC_DEC_INVALID_HANDLE, AAC_DEC_UNSUPPORTED_AOT, AAC_DEC_UNSUPPORTED_FORMAT,
   AAC_DEC_UNSUPPORTED_ER_FORMAT, AAC_DEC_UNSUPPORTED_EPCONFIG,
   AAC_DEC_UNSUPPORTED_MULTILAYER, AAC_DEC_UNSUPPORTED_CHANNELCONFIG,
   AAC_DEC_UNSUPPORTED_SAMPLINGRATE, AAC_DEC_INVALID_SBR_CONFIG,
   AAC_DEC_SET_PARAM_FAIL, AAC_DEC_NEED_TO_RESTART, AAC_DEC_OUTPUT_BUFFER_TOO_SMALL,
   aac_dec_decode_error_start, AAC_DEC_TRANSPORT_ERROR, AAC_DEC_PARSE_ERROR,
   AAC_DEC_UNSUPPORTED_EXTENSION_PAYLOAD, AAC_DEC_DECODE_FRAME_ERROR,
   AAC_DEC_CRC_ERROR, AAC_DEC_INVALID_CODE_BOOK, AAC_DEC_UNSUPPORTED_PREDICTION,
   AAC_DEC_UNSUPPORTED_CCE, AAC_DEC_UNSUPPORTED_LFE,
   AAC_DEC_UNSUPPORTED_GAIN_CONTROL_DATA, AAC_DEC_UNSUPPORTED_SBA,
   AAC_DEC_TNS_READ_ERROR, AAC_DEC_RVLC_ERROR, aac_dec_anc_data_error_start,
   AAC_DEC_ANC_DATA_ERROR, AAC_DEC_TOO_SMALL_ANC_BUFFER, AAC_DEC_TOO_MANY_ANC_ELEMENTS]

/-! ## Encoder parameter types (src/src/enc.rs lines 77-149) -/

/-- Bit-rate policy: constant target or one of five variable-rate tiers. -/
inductive BitRate where
  | Cbr (bitrate : Nat)
  | VbrVeryLow
  | VbrLow
  | VbrMedium
  | VbrHigh
  | VbrVeryHigh
deriving DecidableEq

inductive ChannelMode where
  | Mono
  | Stereo
deriving DecidableEq

inductive AudioObjectType where
  | Mpeg4LowComplexity
  | Mpeg4HeAac
  | Mpeg4HeAacV2
  | Mpeg4LowDelay
  | Mpeg4EnhancedLowDelay
  | Mpeg2Aac
  | Mpeg2HeAac
deriving DecidableEq

/-- Encoder transport framing (src/src/enc.rs lines 140-143). -/
inductive Transport where
  | Adts
  | Raw
deriving DecidableEq

structure EncoderParams where
  bit_rate : BitRate
  sample_rate : Nat
  transport : Transport
  channels : ChannelMode
  audio_object_type : AudioObjectType

/-! ## Encoder parameter identifiers (fdk-aac-sys/src/enc.rs, enum Param) -/

def AACENC_AOT : Nat := 0x0100
def AACENC_BITRATE : Nat := 0x0101
def AACENC_BITRATEMODE : Nat := 0x0102
def AACENC_SAMPLERATE : Nat := 0x0103
def AACENC_SBR_MODE : Nat := 0x0104
def AACENC_CHANNELMODE : Nat := 0x0106
def AACENC_TRANSMUX : Nat := 0x0300

/-- AUDIO_OBJECT_TYPE constant chosen for each AudioObjectType variant in
Encoder::new (src/src/enc.rs lines 156-164; the numeric values are stated
in the variants' doc comments, lines 93-125). -/
def aotValue : AudioObjectType → Nat
  | AudioObjectType.Mpeg4LowComplexity => 2
  | AudioObjectType.Mpeg4HeAac => 5
  | AudioObjectType.Mpeg4HeAacV2 => 29
  | AudioObjectType.Mpeg4LowDelay => 23
  | AudioObjectType.Mpeg4EnhancedLowDelay => 39
  | AudioObjectType.Mpeg2Aac => 129
  | AudioObjectType.Mpeg2HeAac => 132

/-- The bitrate_mode value computed in Encoder::new (src/src/enc.rs lines
168-178): 0 for constant rate, 1-5 for the ascending variable-rate tiers. -/
def bitrateModeValue : BitRate → Nat
  | BitRate.Cbr _ => 0
  | BitRate.VbrVeryLow => 1
  | BitRate.VbrLow => 2
  | BitRate.VbrMedium => 3
  | BitRate.VbrHigh => 4
  | BitRate.VbrVeryHigh => 5

/-- TRANSMUX value (src/src/enc.rs lines 184-187): Adts = 2, Raw = 0. -/
def transportValue : Transport → Nat
  | Transport.Adts => 2
  | Transport.Raw => 0

/-- CHANNELMODE value (src/src/enc.rs lines 195-198): Mono = 1, Stereo = 2. -/
def channelModeValue : ChannelMode → Nat
  | ChannelMode.Mono => 1
  | ChannelMode.Stereo => 2

/-! ## Encoder engine-call trace model

Each engine call in Encoder::new and the Drop impls is recorded as an
EncCall.  The engine is abstracted as an oracle `Nat → Int` giving the
status code returned by the i-th engine call of the session. -/

inductive EncCall where
  /-- aacEncOpen with the given maxModules and maxChannels arguments. -/
  | openCall (maxModules : Nat) (maxChannels : Nat)
  /-- aacEncoder_SetParam with the given parameter id and value. -/
  | setParam (param : Nat) (value : Nat)
  /-- The aacEncEncode call with all null descriptors and arguments
  (src/src/enc.rs line 202). -/
  | primeEncode
  /-- aacEncClose (from Drop for EncoderHandle, src/src/enc.rs lines 71-75). -/
  | closeCall
deriving DecidableEq

/-- Runs a statically known sequence of engine calls, mirroring the chain
of check(...)? statements in Encoder::new: each call is issued in order,
and the first non-OK status short-circuits, returning that call's typed
error; later calls are not issued.  Returns the calls actually issued, the
next call index, and the outcome. -/
def runCalls (eng : Nat → Int) : Nat → List EncCall → List EncCall × Nat × Except EncoderError Unit
  | n, [] => ([], n, Except.ok ())
  | n, c :: cs =>
      if eng n = AACENC_OK then
        let rest := runCalls eng (n + 1) cs
        (c :: rest.1, rest.2)
      else
        ([c], n + 1, Except.error ⟨eng n⟩)

/-- The parameter-set calls issued by Encoder::new after a successful
aacEncOpen, in source order (src/src/enc.rs lines 155-202): AOT, the
bit-rate target only in the Cbr arm of the match, then bit-rate mode,
sample rate, transport mux, SBR mode hardcoded off, channel mode, and the
priming encode call with null descriptors. -/
def configCalls (p : EncoderParams) : List EncCall :=
  EncCall.setParam AACENC_AOT (aotValue p.audio_object_type) ::
    ((match p.bit_rate with
      | BitRate.Cbr bitrate => [EncCall.setParam AACENC_BITRATE bitrate]
      | _ => []) ++
     [EncCall.setParam AACENC_BITRATEMODE (bitrateModeValue p.bit_rate),
      EncCall.setParam AACENC_SAMPLERATE p.sample_rate,
      EncCall.setParam AACENC_TRANSMUX (transportValue p.transport),
      EncCall.setParam AACENC_SBR_MODE 0,
      EncCall.setParam AACENC_CHANNELMODE (channelModeValue p.channels),
      EncCall.primeEncode])

/-- The calls of Encoder::new after the initial aacEncOpen, together with
the outcome.  If the open call itself fails, EncoderHandle::alloc
(src/src/enc.rs lines 62-68) returns the error before an EncoderHandle is
constructed, so nothing further runs and no close is issued.  If a later
configuration step fails, the early return from Encoder::new drops the
already-constructed EncoderHandle, whose Drop impl issues aacEncClose. -/
def encoderNewRest (eng : Nat → Int) (p : EncoderParams) : List EncCall × Except EncoderError Unit :=
  if eng 0 = AACENC_OK then
    match runCalls eng 1 (configCalls p) with
    | (tr, _, Except.ok _) => (tr, Except.ok ())
    | (tr, _, Except.error err) => (tr ++ [EncCall.closeCall], Except.error err)
  else
    ([], Except.error ⟨eng 0⟩)

/-- Encoder::new (src/src/enc.rs lines 152-206): aacEncOpen with module
mask 0 and max channels 2, then the configuration call sequence. -/
def encoderNew (eng : Nat → Int) (p : EncoderParams) : List EncCall × Except EncoderError Unit :=
  (EncCall.openCall 0 2 :: (encoderNewRest eng p).1, (encoderNewRest eng p).2)

/-- An engine oracle that reports success for every call. -/
def okEngine : Nat → Int := fun _ => AACENC_OK

/-- Complete engine-call trace of one encoder session: the calls of
Encoder::new, plus, when construction succeeded, the aacEncClose issued by
Drop for EncoderHandle when the Encoder is eventually dropped. -/
def encoderSessionTrace (eng : Nat → Int) (p : EncoderParams) : List EncCall :=
  match encoderNew eng p with
  | (tr, Except.ok _) => tr ++ [EncCall.closeCall]
  | (tr, Except.error _) => tr

def isOpenCall : EncCall → Bool
  | EncCall.openCall _ _ => true
  | _ => false

def isCloseCall : EncCall → Bool
  | EncCall.closeCall => true
  | _ => false

def isBitrateSetCall : EncCall → Bool
  | EncCall.setParam param _ => param == AACENC_BITRATE
  | _ => false

/-! ## Buffer descriptor construction (Encoder::encode, src/src/enc.rs 214-248)

The raw buffer addresses handed to the engine are modelled abstractly:
the input descriptor's single address is the input slice's pointer, the
output descriptor's single address is the output slice's pointer. -/

inductive BufAddr where
  /-- input.as_ptr(), the caller's PCM sample slice. -/
  | inSlicePtr
  /-- output.as_mut_ptr(), the caller's mutable output byte slice. -/
  | outSlicePtr
deriving DecidableEq

/-- AACENC_BufDesc (fdk-aac-sys/src/enc.rs lines 110-128): buffer count
plus four parallel arrays of addresses, identifiers, sizes and element
sizes.  In the wrapper each array is a single stack variable, so each is a
one-element list here. -/
structure BufDesc where
  numBufs : Int
  bufs : List BufAddr
  bufferIdentifiers : List Int
  bufSizes : List Int
  bufElSizes : List Int
deriving DecidableEq

/-- AACENC_InArgs (fdk-aac-sys/src/enc.rs lines 130-139). -/
structure InArgs where
  numInSamples : Int
  numAncBytes : Int
deriving DecidableEq

/-- Buffer identifier constants (fdk-aac-sys/src/enc.rs lines 22-26). -/
def IN_AUDIO_DATA : Int := 0
def OUT_BITSTREAM_DATA : Int := 3

/-- input_len (src/src/enc.rs line 215): the input slice length clamped to
i32::MAX = 2^31 - 1 before being used as a 32-bit signed sample count. -/
def encodeInputLen (inputLen : Nat) : Int :=
  Int.ofNat (min (2 ^ 31 - 1) inputLen)

/-- The usize -> c_int cast applied to output.len() (src/src/enc.rs line
231): keep the low 32 bits and reinterpret as a signed 32-bit value. -/
def i32ofUsize (n : Nat) : Int :=
  let m := n % 2 ^ 32
  if m < 2 ^ 31 then Int.ofNat m else Int.ofNat m - 2 ^ 32

/-- The input buffer descriptor built by Encoder::encode (src/src/enc.rs
lines 217-227): one buffer, role IN_AUDIO_DATA, size the clamped sample
count, element size size_of::<i16>() = 2. -/
def encodeInDesc (inputLen : Nat) : BufDesc :=
  { numBufs := 1
    bufs := [BufAddr.inSlicePtr]
    bufferIdentifiers := [IN_AUDIO_DATA]
    bufSizes := [encodeInputLen inputLen]
    bufElSizes := [2] }

/-- The output buffer descriptor built by Encoder::encode (src/src/enc.rs
lines 229-239): one buffer, role OUT_BITSTREAM_DATA, size output.len()
cast to c_int, element size size_of::<u8>() = 1. -/
def encodeOutDesc (outputLen : Nat) : BufDesc :=
  { numBufs := 1
    bufs := [BufAddr.outSlicePtr]
    bufferIdentifiers := [OUT_BITSTREAM_DATA]
    bufSizes := [i32ofUsize outputLen]
    bufElSizes := [1] }

/-- The AACENC_InArgs built by Encoder::encode (src/src/enc.rs lines
241-244): the clamped sample count and zero ancillary bytes. -/
def encodeInArgs (inputLen : Nat) : InArgs :=
  { numInSamples := encodeInputLen inputLen
    numAncBytes := 0 }

/-- Everything Encoder::encode hands to aacEncEncode for an input slice of
the given length and an output slice of the given length. -/
def encoderEncode (inputLen outputLen : Nat) : BufDesc × BufDesc × InArgs :=
  (encodeInDesc inputLen, encodeOutDesc outputLen, encodeInArgs inputLen)

/-! ## Decoder model (src/src/dec.rs) -/

/-- Decoder transport framing (src/src/dec.rs lines 196-200). -/
inductive DecTransport where
  | Raw
  | Adts
deriving DecidableEq

/-- Decoder engine calls recorded for the lifecycle claims. -/
inductive DecCall where
  /-- aacDecoder_Open for the given transport with the given layer count. -/
  | openCall (transport : DecTransport) (nrOfLayers : Nat)
  /-- aacDecoder_Close (from Drop for Decoder, src/src/dec.rs 190-194). -/
  | closeCall
deriving DecidableEq

/-- The state held by a live Decoder: the raw handle the engine returned
from aacDecoder_Open, possibly null (modelled as none). -/
structure DecoderModel where
  handle : Option Unit
deriving DecidableEq

/-- Decoder::new (src/src/dec.rs lines 118-129): calls aacDecoder_Open
with the transport type and 1 layer, and wraps whatever handle the engine
returns.  The function is infallible: it has no error result, and the
returned handle is stored without any check. -/
def decoderNew (engineHandle : Option Unit) (t : DecTransport) : DecoderModel × List DecCall :=
  ({ handle := engineHandle }, [DecCall.openCall t 1])

/-- Complete engine-call trace of one decoder session: aacDecoder_Open in
Decoder::new, then aacDecoder_Close from Drop for Decoder. -/
def decoderSessionTrace (engineHandle : Option Unit) (t : DecTransport) : List DecCall :=
  (decoderNew engineHandle t).2 ++ [DecCall.closeCall]

def isDecOpenCall : DecCall → Bool
  | DecCall.openCall _ _ => true
  | _ => false

def isDecCloseCall : DecCall → Bool
  | DecCall.closeCall => true
  | _ => false

/-- Decoder::fill (src/src/dec.rs lines 155-168): hands the data slice to
aacDecoder_Fill; the engine reports the status code and overwrites
bytesValid with the number of bytes it did not consume.  On success the
wrapper returns data.len() - bytesValid. -/
def decoderFill (dataLen : Nat) (engStatus : Int) (engBytesValid : Nat) : Except DecoderError Nat :=
  if engStatus = AAC_DEC_OK then
    Except.ok (dataLen - engBytesValid)
  else
    Except.error ⟨engStatus⟩

/-! ## Helper lemmas about runCalls -/

theorem runCalls_ok_of (eng : Nat → Int) :
    ∀ (cs : List EncCall) (n : Nat), (∀ j, j < cs.length → eng (n + j) = AACENC_OK) →
      runCalls eng n cs = (cs, n + cs.length, Except.ok ()) := by
  intro cs
  induction cs with
  | nil => intro n _; simp [runCalls]
  | cons c cs ih =>
      intro n h
      have h0 : eng n = AACENC_OK := by
        have := h 0 (by simp)
        simpa using this
      have htail : ∀ j, j < cs.length → eng (n + 1 + j) = AACENC_OK := by
        intro j hj
        have := h (j + 1) (by simpa using Nat.succ_lt_succ hj)
        rw [show n + 1 + j = n + (j + 1) by omega]
        exact this
      simp [runCalls, h0, ih (n + 1) htail]
      omega

theorem runCalls_fail_at (eng : Nat → Int) :
    ∀ (cs : List EncCall) (n k : Nat), k < cs.length →
      (∀ j, j < k → eng (n + j) = AACENC_OK) → eng (n + k) ≠ AACENC_OK →
      runCalls eng n cs = (cs.take (k + 1), n + k + 1, Except.error ⟨eng (n + k)⟩) := by
  intro cs
  induction cs with
  | nil => intro n k hk; simp at hk
  | cons c cs ih =>
      intro n k hk hprev hfail
      match k with
      | 0 =>
          have h0 : eng n ≠ AACENC_OK := by simpa using hfail
          simp [runCalls, h0]
      | k + 1 =>
          have h0 : eng n = AACENC_OK := by
            have := hprev 0 (by omega)
            simpa using this
          have hk' : k < cs.length := by simpa using hk
          have hprev' : ∀ j, j < k → eng (n + 1 + j) = AACENC_OK := by
            intro j hj
            have := hprev (j + 1) (by omega)
            rw [show n + 1 + j = n + (j + 1) by omega]
            exact this
          have hfail' : eng (n + 1 + k) ≠ AACENC_OK := by
            rw [show n + 1 + k = n + (k + 1) by omega]
            exact hfail
          have := ih (n + 1) k hk' hprev' hfail'
          simp [runCalls, h0, this]
          constructor
          · omega
          · rw [show n + 1 + k = n + (k + 1) by omega]

theorem runCalls_trace_mem (eng : Nat → Int) :
    ∀ (cs : List EncCall) (n : Nat) (c : EncCall), c ∈ (runCalls eng n cs).1 → c ∈ cs := by
  intro cs
  induction cs with
  | nil => intro n c hc; simp [runCalls] at hc
  | cons d cs ih =>
      intro n c hc
      by_cases h : eng n = AACENC_OK
      · simp [runCalls, h] at hc
        rcases hc with hc | hc
        · simp [hc]
        · exact List.mem_cons_of_mem _ (ih (n + 1) c hc)
      · simp [runCalls, h] at hc
        simp [hc]

/-! ## Claim theorems -/

/-- C1: Encoder::encode builds exactly one input buffer descriptor entry
with role IN_AUDIO_DATA and element size 2 referencing the input slice,
and exactly one output buffer descriptor entry with role
OUT_BITSTREAM_DATA and element size 1 referencing the output slice; in
each descriptor the buffer count is 1 and the four parallel arrays each
have length equal to that count. -/
theorem encode_buffer_descriptors (nIn nOut : Nat) :
    (encoderEncode nIn nOut).1.numBufs = 1 ∧
    (encoderEncode nIn nOut).1.bufs = [BufAddr.inSlicePtr] ∧
    (encoderEncode nIn nOut).1.bufferIdentifiers = [IN_AUDIO_DATA] ∧
    (encoderEncode nIn nOut).1.bufElSizes = [2] ∧
    (encoderEncode nIn nOut).1.bufs.length = 1 ∧
    (encoderEncode nIn nOut).1.bufferIdentifiers.length = 1 ∧
    (encoderEncode nIn nOut).1.bufSizes.length = 1 ∧
    (encoderEncode nIn nOut).1.bufElSizes.length = 1 ∧
    (encoderEncode nIn nOut).2.1.numBufs = 1 ∧
    (encoderEncode nIn nOut).2.1.bufs = [BufAddr.outSlicePtr] ∧
    (encoderEncode nIn nOut).2.1.bufferIdentifiers = [OUT_BITSTREAM_DATA] ∧
    (encoderEncode nIn nOut).2.1.bufElSizes = [1] ∧
    (encoderEncode nIn nOut).2.1.bufs.length = 1 ∧
    (encoderEncode nIn nOut).2.1.bufferIdentifiers.length = 1 ∧
    (encoderEncode nIn nOut).2.1.bufSizes.length = 1 ∧
    (encoderEncode nIn nOut).2.1.bufElSizes.length = 1 ∧
    IN_AUDIO_DATA = 0 ∧ OUT_BITSTREAM_DATA = 3 :=
  ⟨rfl, rfl, rfl, rfl, rfl, rfl, rfl, rfl, rfl, rfl, rfl, rfl, rfl, rfl, rfl, rfl, rfl, rfl⟩

/-- C3: configuring with Cbr(64000) issues a bit-rate-set call with value
64000 followed by a bitrate-mode-set call with value 0; configuring with
VbrMedium issues only a bitrate-mode-set call with value 3 and no
bit-rate-set call; the five variable-rate tiers map in ascending order to
mode values 1 through 5. -/
theorem bitrate_config_calls (sr : Nat) (tp : Transport) (ch : ChannelMode) (aot : AudioObjectType) :
    (encoderNew okEngine ⟨BitRate.Cbr 64000, sr, tp, ch, aot⟩).1 =
      [EncCall.openCall 0 2,
       EncCall.setParam AACENC_AOT (aotValue aot),
       EncCall.setParam AACENC_BITRATE 64000,
       EncCall.setParam AACENC_BITRATEMODE 0,
       EncCall.setParam AACENC_SAMPLERATE sr,
       EncCall.setParam AACENC_TRANSMUX (transportValue tp),
       EncCall.setParam AACENC_SBR_MODE 0,
       EncCall.setParam AACENC_CHANNELMODE (channelModeValue ch),
       EncCall.primeEncode] ∧
    (encoderNew okEngine ⟨BitRate.VbrMedium, sr, tp, ch, aot⟩).1 =
      [EncCall.openCall 0 2,
       EncCall.setParam AACENC_AOT (aotValue aot),
       EncCall.setParam AACENC_BITRATEMODE 3,
       EncCall.setParam AACENC_SAMPLERATE sr,
       EncCall.setParam AACENC_TRANSMUX (transportValue tp),
       EncCall.setParam AACENC_SBR_MODE 0,
       EncCall.setParam AACENC_CHANNELMODE (channelModeValue ch),
       EncCall.primeEncode] ∧
    (encoderNew okEngine ⟨BitRate.VbrMedium, sr, tp, ch, aot⟩).1.countP isBitrateSetCall = 0 ∧
    bitrateModeValue BitRate.VbrVeryLow = 1 ∧
    bitrateModeValue BitRate.VbrLow = 2 ∧
    bitrateModeValue BitRate.VbrMedium = 3 ∧
    bitrateModeValue BitRate.VbrHigh = 4 ∧
    bitrateModeValue BitRate.VbrVeryHigh = 5 :=
  ⟨rfl, rfl, rfl, rfl, rfl, rfl, rfl, rfl⟩

/-- C4: for every EncoderParams, Encoder::new issues the engine calls in
exactly this order: open, audio object type, bit-rate target (only in
constant-rate mode) then bit-rate mode, sample rate, transport framing,
SBR mode fixed to 0 (off), channel mode, and finally the priming encode
call with null descriptors, which is the last call of construction and so
precedes any real encode on the returned encoder. -/
theorem encoder_config_order (br : BitRate) (sr : Nat) (tp : Transport) (ch : ChannelMode) (aot : AudioObjectType) :
    encoderNew okEngine ⟨br, sr, tp, ch, aot⟩ =
      (EncCall.openCall 0 2 ::
       EncCall.setParam AACENC_AOT (aotValue aot) ::
       ((match br with
         | BitRate.Cbr bitrate => [EncCall.setParam AACENC_BITRATE bitrate]
         | _ => []) ++
        [EncCall.setParam AACENC_BITRATEMODE (bitrateModeValue br),
         EncCall.setParam AACENC_SAMPLERATE sr,
         EncCall.setParam AACENC_TRANSMUX (transportValue tp),
         EncCall.setParam AACENC_SBR_MODE 0,
         EncCall.setParam AACENC_CHANNELMODE (channelModeValue ch),
         EncCall.primeEncode]),
       Except.ok ()) := by
  cases br <;> rfl

/-- C6: on success, Decoder::fill returns the supplied byte count minus
the count the engine reports as still unconsumed, so the result is at most
the supplied length. -/
theorem decoder_fill_consumed (dataLen engBytesValid : Nat) (engStatus : Int)
    (hok : engStatus = AAC_DEC_OK) (hle : engBytesValid ≤ dataLen) :
    decoderFill dataLen engStatus engBytesValid = Except.ok (dataLen - engBytesValid) ∧
    (dataLen - engBytesValid) + engBytesValid = dataLen ∧
    dataLen - engBytesValid ≤ dataLen := by
  subst hok
  exact ⟨by simp [decoderFill], Nat.sub_add_cancel hle, Nat.sub_le _ _⟩

/-- C6 witness: filling 10 bytes with the engine reporting 4 still
unconsumed returns 6 consumed. -/
theorem decoder_fill_consumed_witness :
    decoderFill 10 AAC_DEC_OK 4 = Except.ok 6 ∧ 6 + 4 = 10 ∧ 6 ≤ 10 :=
  decoder_fill_consumed 10 4 AAC_DEC_OK rfl (by norm_num)

/-- C7: the sample count Encoder::encode gives to the engine, both as the
input descriptor's size and as numInSamples, is the input slice's length
clamped to 2^31 - 1; lengths up to the limit pass through unchanged and
anything beyond is silently capped at 2^31 - 1 (encoderEncode is total, so
no error is raised). -/
theorem encode_input_clamp (nIn : Nat) :
    (encodeInDesc nIn).bufSizes = [Int.ofNat (min (2 ^ 31 - 1) nIn)] ∧
    (encodeInArgs nIn).numInSamples = Int.ofNat (min (2 ^ 31 - 1) nIn) ∧
    (encodeInArgs nIn).numInSamples ≤ Int.ofNat (2 ^ 31 - 1) ∧
    (nIn ≤ 2 ^ 31 - 1 → (encodeInArgs nIn).numInSamples = Int.ofNat nIn) ∧
    (2 ^ 31 - 1 ≤ nIn → (encodeInArgs nIn).numInSamples = Int.ofNat (2 ^ 31 - 1)) := by
  refine ⟨rfl, rfl, Int.ofNat_le.mpr (Nat.min_le_left _ _), ?_, ?_⟩
  · intro h
    show Int.ofNat (min (2 ^ 31 - 1) nIn) = Int.ofNat nIn
    rw [Nat.min_eq_right h]
  · intro h
    show Int.ofNat (min (2 ^ 31 - 1) nIn) = Int.ofNat (2 ^ 31 - 1)
    rw [Nat.min_eq_left h]

/-- C7 witness: an in-range length of 1024 passes through unchanged, and
a length of 2^31 is clamped to 2^31 - 1. -/
theorem encode_input_clamp_witness :
    (encodeInArgs 1024).numInSamples = Int.ofNat 1024 ∧
    (encodeInArgs (2 ^ 31)).numInSamples = Int.ofNat (2 ^ 31 - 1) :=
  ⟨(encode_input_clamp 1024).2.2.2.1 (by norm_num),
   (encode_input_clamp (2 ^ 31)).2.2.2.2 (by norm_num)⟩

/-- C10: Encoder::new always opens the engine handle with module mask 0
and maximum channel capacity 2, whatever the params and whatever the
engine answers; and every encode call submits numAncBytes = 0. -/
theorem encoder_open_args_anc (eng : Nat → Int) (p : EncoderParams) (nIn nOut : Nat) :
    (encoderNew eng p).1.head? = some (EncCall.openCall 0 2) ∧
    (encoderEncode nIn nOut).2.2.numAncBytes = 0 :=
  ⟨rfl, rfl⟩

set_option maxHeartbeats 4000000 in
/-- C2: the status-to-message translation is total: every code yields a
non-empty message; every recognized code yields a message different from
the fallback, and recognized codes' messages are pairwise distinct
(code-specific); every unrecognized code yields exactly "Unknown error".
This holds for both the encoder and the decoder taxonomies. -/
theorem status_message_total :
    (∀ c : Int, EncoderError.message ⟨c⟩ ≠ "") ∧
    (∀ c ∈ encKnownCodes, EncoderError.message ⟨c⟩ ≠ "Unknown error") ∧
    ((encKnownCodes.map fun c => EncoderError.message ⟨c⟩).Nodup) ∧
    (∀ c : Int, c ∉ encKnownCodes → EncoderError.message ⟨c⟩ = "Unknown error") ∧
    (∀ c : Int, DecoderError.message ⟨c⟩ ≠ "") ∧
    (∀ c ∈ decKnownCodes, DecoderError.message ⟨c⟩ ≠ "Unknown error") ∧
    ((decKnownCodes.map fun c => DecoderError.message ⟨c⟩).Nodup) ∧
    (∀ c : Int, c ∉ decKnownCodes → DecoderError.message ⟨c⟩ = "Unknown error") := by
  have enc4 : ∀ c : Int, c ∉ encKnownCodes → EncoderError.message ⟨c⟩ = "Unknown error" := by
    intro c hc
    simp only [encKnownCodes, List.mem_cons, List.not_mem_nil, or_false, not_or] at hc
    obtain ⟨h1, h2, h3, h4, h5, h6, h7, h8, h9, h10, h11, h12, h13⟩ := hc
    simp only [EncoderError.message, if_neg h1, if_neg h2, if_neg h3, if_neg h4, if_neg h5,
      if_neg h6, if_neg h7, if_neg h8, if_neg h9, if_neg h10, if_neg h11, if_neg h12, if_neg h13]
  have dec4 : ∀ c : Int, c ∉ decKnownCodes → DecoderError.message ⟨c⟩ = "Unknown error" := by
    intro c hc
    simp only [decKnownCodes, List.mem_cons, List.not_mem_nil, or_false, not_or] at hc
    obtain ⟨h1, h2, h3, h4, h5, h6, h7, h8, h9, h10, h11, h12, h13, h14, h15, h16, h17, h18,
      h19, h20, h21, h22, h23, h24, h25, h26, h27, h28, h29, h30, h31, h32, h33, h34, h35,
      h36, h37⟩ := hc
    simp only [DecoderError.message, if_neg h1, if_neg h2, if_neg h3, if_neg h4, if_neg h5,
      if_neg h6, if_neg h7, if_neg h8, if_neg h9, if_neg h10, if_neg h11, if_neg h12,
      if_neg h13, if_neg h14, if_neg h15, if_neg h16, if_neg h17, if_neg h18, if_neg h19,
      if_neg h20, if_neg h21, if_neg h22, if_neg h23, if_neg h24, if_neg h25, if_neg h26,
      if_neg h27, if_neg h28, if_neg h29, if_neg h30, if_neg h31, if_neg h32, if_neg h33,
      if_neg h34, if_neg h35, if_neg h36, if_neg h37]
  have enc1mem : ∀ c ∈ encKnownCodes, EncoderError.message ⟨c⟩ ≠ "" := by decide
  have dec1mem : ∀ c ∈ decKnownCodes, DecoderError.message ⟨c⟩ ≠ "" := by decide
  have enc1 : ∀ c : Int, EncoderError.message ⟨c⟩ ≠ "" := by
    intro c
    by_cases hc : c ∈ encKnownCodes
    · exact enc1mem c hc
    · rw [enc4 c hc]; decide
  have dec1 : ∀ c : Int, DecoderError.message ⟨c⟩ ≠ "" := by
    intro c
    by_cases hc : c ∈ decKnownCodes
    · exact dec1mem c hc
    · rw [dec4 c hc]; decide
  exact ⟨enc1, by decide, by decide, enc4, dec1, by decide, by decide, dec4⟩

/-- C2 witness: a recognized encoder code and a recognized decoder code
each give a non-empty, non-fallback message, and an unrecognized code
gives the fallback for both taxonomies. -/
theorem status_message_total_witness :
    EncoderError.message ⟨AACENC_MEMORY_ERROR⟩ ≠ "" ∧
    EncoderError.message ⟨AACENC_MEMORY_ERROR⟩ ≠ "Unknown error" ∧
    EncoderError.message ⟨12345⟩ = "Unknown error" ∧
    DecoderError.message ⟨AAC_DEC_CRC_ERROR⟩ ≠ "" ∧
    DecoderError.message ⟨AAC_DEC_CRC_ERROR⟩ ≠ "Unknown error" ∧
    DecoderError.message ⟨12345⟩ = "Unknown error" :=
  ⟨status_message_total.1 AACENC_MEMORY_ERROR,
   status_message_total.2.1 AACENC_MEMORY_ERROR (by decide),
   status_message_total.2.2.2.1 12345 (by decide),
   status_message_total.2.2.2.2.1 AAC_DEC_CRC_ERROR,
   status_message_total.2.2.2.2.2.1 AAC_DEC_CRC_ERROR (by decide),
   status_message_total.2.2.2.2.2.2.2 12345 (by decide)⟩

/-- Helper: the configuration call sequence contains no open call. -/
theorem configCalls_countP_open (p : EncoderParams) : (configCalls p).countP isOpenCall = 0 := by
  rcases p with ⟨br, sr, tp, ch, aot⟩
  cases br <;> rfl

/-- Helper: the configuration call sequence contains no close call. -/
theorem configCalls_countP_close (p : EncoderParams) : (configCalls p).countP isCloseCall = 0 := by
  rcases p with ⟨br, sr, tp, ch, aot⟩
  cases br <;> rfl

/-- C5 counterexample: the claim says Decoder::new fails with an
initialization error when the engine's allocation fails, with no partially
constructed session escaping.  In the code Decoder::new has no error
result at all: when aacDecoder_Open returns a null handle, a Decoder
wrapping that null handle is returned to the caller. -/
theorem decoder_new_no_init_error :
    decoderNew none DecTransport.Adts =
      ({ handle := none }, [DecCall.openCall DecTransport.Adts 1]) :=
  rfl

/-- C5 amended: when the engine's allocation call fails, Encoder::new
(via EncoderHandle::alloc) returns that error and no session escapes (the
trace is the lone open call, with no close because no handle was
constructed); Decoder::new, by contrast, is infallible and returns a
decoder wrapping whatever handle - possibly null - the engine returned. -/
theorem open_failure_behavior (eng : Nat → Int) (p : EncoderParams) (h : eng 0 ≠ AACENC_OK) :
    encoderNew eng p = ([EncCall.openCall 0 2], Except.error ⟨eng 0⟩) ∧
    ∀ (ht : Option Unit) (t : DecTransport), (decoderNew ht t).1.handle = ht := by
  constructor
  · simp [encoderNew, encoderNewRest, h]
  · intro ht t
    rfl

/-- C5 witness: an engine whose open call reports MEMORY_ERROR makes
Encoder::new return that error with only the open call issued. -/
theorem open_failure_behavior_witness :
    encoderNew (fun _ => AACENC_MEMORY_ERROR)
        ⟨BitRate.Cbr 64000, 44100, Transport.Adts, ChannelMode.Stereo,
         AudioObjectType.Mpeg4LowComplexity⟩ =
      ([EncCall.openCall 0 2], Except.error ⟨AACENC_MEMORY_ERROR⟩) ∧
    ∀ (ht : Option Unit) (t : DecTransport), (decoderNew ht t).1.handle = ht :=
  open_failure_behavior (fun _ => AACENC_MEMORY_ERROR)
    ⟨BitRate.Cbr 64000, 44100, Transport.Adts, ChannelMode.Stereo,
     AudioObjectType.Mpeg4LowComplexity⟩ (by decide)

/-- C8 counterexample: the claim says that after a failing configuration
step the session is left allocated.  In the code the early return drops
the EncoderHandle, whose Drop impl closes the session before Encoder::new
returns: the trace of a run whose AOT step fails ends with the close
call. -/
theorem config_failure_closes_handle :
    encoderNew (fun n => if n = 0 then AACENC_OK else AACENC_INVALID_CONFIG)
        ⟨BitRate.Cbr 64000, 44100, Transport.Adts, ChannelMode.Stereo,
         AudioObjectType.Mpeg4LowComplexity⟩ =
      ([EncCall.openCall 0 2,
        EncCall.setParam AACENC_AOT (aotValue AudioObjectType.Mpeg4LowComplexity),
        EncCall.closeCall],
       Except.error ⟨AACENC_INVALID_CONFIG⟩) ∧
    EncCall.closeCall ∈ (encoderNew (fun n => if n = 0 then AACENC_OK else AACENC_INVALID_CONFIG)
        ⟨BitRate.Cbr 64000, 44100, Transport.Adts, ChannelMode.Stereo,
         AudioObjectType.Mpeg4LowComplexity⟩).1 := by
  exact ⟨rfl, by decide⟩

/-- C8 amended: any failing configuration step short-circuits Encoder::new:
the calls issued are exactly the open call, the configuration calls up to
and including the failing one, and the close call from dropping the
handle; that step's typed error is returned, and the session handle is
closed by the automatic drop rather than left allocated. -/
theorem config_short_circuit (eng : Nat → Int) (p : EncoderParams) (k : Nat)
    (hopen : eng 0 = AACENC_OK) (hk : k < (configCalls p).length)
    (hprev : ∀ j, j < k → eng (1 + j) = AACENC_OK) (hfail : eng (1 + k) ≠ AACENC_OK) :
    encoderNew eng p =
      (EncCall.openCall 0 2 :: ((configCalls p).take (k + 1) ++ [EncCall.closeCall]),
       Except.error ⟨eng (1 + k)⟩) := by
  have hrun := runCalls_fail_at eng (configCalls p) 1 k hk hprev hfail
  simp [encoderNew, encoderNewRest, hopen, hrun]

/-- C8 witness: with an engine failing from the second call on, the AOT
step (index 0 of the configuration sequence) fails, only it is issued, and
the trace ends with the close call. -/
theorem config_short_circuit_witness :
    encoderNew (fun n => if n = 0 then AACENC_OK else AACENC_UNSUPPORTED_PARAMETER)
        ⟨BitRate.Cbr 64000, 44100, Transport.Adts, ChannelMode.Stereo,
         AudioObjectType.Mpeg4LowComplexity⟩ =
      ([EncCall.openCall 0 2,
        EncCall.setParam AACENC_AOT (aotValue AudioObjectType.Mpeg4LowComplexity),
        EncCall.closeCall],
       Except.error ⟨AACENC_UNSUPPORTED_PARAMETER⟩) :=
  config_short_circuit (fun n => if n = 0 then AACENC_OK else AACENC_UNSUPPORTED_PARAMETER)
    ⟨BitRate.Cbr 64000, 44100, Transport.Adts, ChannelMode.Stereo,
     AudioObjectType.Mpeg4LowComplexity⟩ 0
    (by decide) (by decide) (fun j hj => absurd hj (Nat.not_lt_zero j)) (by decide)

/-- C9 counterexample: the claim includes the invariant that the handle is
non-null while the session is live.  Decoder::new stores the engine's
returned handle without any check, so a session constructed after a failed
(null-returning) engine open is live with a null handle, while its
lifecycle still performs its one open and one close call. -/
theorem decoder_null_handle_live :
    (decoderNew none DecTransport.Raw).1.handle = none ∧
    decoderSessionTrace none DecTransport.Raw =
      [DecCall.openCall DecTransport.Raw 1, DecCall.closeCall] :=
  ⟨rfl, rfl⟩

/-- C9 amended: every session's lifecycle performs exactly one engine open
call and exactly one engine close call - for the encoder whenever the open
call succeeded (whether configuration then failed, closing via the drop,
or the encoder lived until its own drop), and for the decoder
unconditionally; handle non-nullness is whatever the engine returned and
is not enforced by the wrapper. -/
theorem session_open_close_once (eng : Nat → Int) (p : EncoderParams) (h : eng 0 = AACENC_OK) :
    (encoderSessionTrace eng p).countP isOpenCall = 1 ∧
    (encoderSessionTrace eng p).countP isCloseCall = 1 ∧
    ∀ (ht : Option Unit) (t : DecTransport),
      (decoderSessionTrace ht t).countP isDecOpenCall = 1 ∧
      (decoderSessionTrace ht t).countP isDecCloseCall = 1 := by
  have hOpenAll : ∀ c ∈ (runCalls eng 1 (configCalls p)).1, ¬ isOpenCall c = true :=
    fun c hc => (List.countP_eq_zero.mp (configCalls_countP_open p)) c
      (runCalls_trace_mem eng (configCalls p) 1 c hc)
  have hCloseAll : ∀ c ∈ (runCalls eng 1 (configCalls p)).1, ¬ isCloseCall c = true :=
    fun c hc => (List.countP_eq_zero.mp (configCalls_countP_close p)) c
      (runCalls_trace_mem eng (configCalls p) 1 c hc)
  rcases hr : runCalls eng 1 (configCalls p) with ⟨tr, n', r⟩
  rw [hr] at hOpenAll hCloseAll
  have hOZ : tr.countP isOpenCall = 0 := List.countP_eq_zero.mpr hOpenAll
  have hCZ : tr.countP isCloseCall = 0 := List.countP_eq_zero.mpr hCloseAll
  cases r with
  | ok u =>
      cases u
      refine ⟨?_, ?_, fun ht t => ⟨rfl, rfl⟩⟩ <;>
        simp [encoderSessionTrace, encoderNew, encoderNewRest, h, hr,
          List.countP_append, List.countP_cons, hOZ, hCZ, isOpenCall, isCloseCall]
  | error err =>
      refine ⟨?_, ?_, fun ht t => ⟨rfl, rfl⟩⟩ <;>
        simp [encoderSessionTrace, encoderNew, encoderNewRest, h, hr,
          List.countP_append, List.countP_cons, hOZ, hCZ, isOpenCall, isCloseCall]

/-- C9 witness: a fully successful encoder session and a decoder session
each open once and close once. -/
theorem session_open_close_once_witness :
    (encoderSessionTrace okEngine
      ⟨BitRate.Cbr 64000, 44100, Transport.Adts, ChannelMode.Stereo,
       AudioObjectType.Mpeg4LowComplexity⟩).countP isOpenCall = 1 ∧
    (encoderSessionTrace okEngine
      ⟨BitRate.Cbr 64000, 44100, Transport.Adts, ChannelMode.Stereo,
       AudioObjectType.Mpeg4LowComplexity⟩).countP isCloseCall = 1 ∧
    ∀ (ht : Option Unit) (t : DecTransport),
      (decoderSessionTrace ht t).countP isDecOpenCall = 1 ∧
      (decoderSessionTrace ht t).countP isDecCloseCall = 1 :=
  session_open_close_once okEngine
    ⟨BitRate.Cbr 64000, 44100, Transport.Adts, ChannelMode.Stereo,
     AudioObjectType.Mpeg4LowComplexity⟩ rfl
